import Mathlib

/-
Verification of `image_processing_drawbox_helper.py`: a batch utility that
logs in to a prediction service, uploads each image of an input folder,
draws the returned detection boxes, and writes LabelMe-style annotation
files.  The Python program is shallowly embedded below: JSON values are an
inductive type, the mutable global `class_colors` dictionary is threaded as
explicit state, the network and the filesystem are an environment supplying
responses and file bytes, and exceptions are `Option PyExc` results.
-/

/-- JSON values as produced by `resp.json()` and consumed by the script.
Numbers are rationals (covers the integral pixel coordinates and the
decimal confidences that appear in responses). -/
inductive Json where
  | null
  | bool (b : Bool)
  | num (q : Rat)
  | str (s : String)
  | arr (elems : List Json)
  | obj (fields : List (String × Json))

/-- Python exceptions that the script can raise or catch. -/
inductive PyExc where
  | keyError (key : String)
  | typeError
  | attributeError
  | jsonDecodeError
  | imageDecodeError
  | connectionError
  | drawError
deriving DecidableEq

/-- Python `==` as used for dictionary keys.  The script keys `class_colors`
by whatever `pred["class_name"]` returned; hashable scalars compare by
value (with Python's `True == 1` numeric crossing).  Unhashable values
(lists, dicts) would raise `TypeError` in Python before any comparison; no
claim exercises that path and such keys compare unequal to everything here. -/
def pyKeyEq : Json → Json → Bool
  | .null, .null => true
  | .bool a, .bool b => a == b
  | .bool a, .num b => (if a then (1 : Rat) else 0) == b
  | .num a, .bool b => a == (if b then (1 : Rat) else 0)
  | .num a, .num b => a == b
  | .str a, .str b => a == b
  | _, _ => false

/-- Python truthiness, as tested by `if not access_token`. -/
def pyTruthy : Json → Bool
  | .null => false
  | .bool b => b
  | .num q => q != 0
  | .str s => s != ""
  | .arr l => !l.isEmpty
  | .obj kvs => !kvs.isEmpty

/-- Key lookup in a JSON object (first binding wins, as in a Python dict
whose keys are unique); `none` on non-objects or missing keys. -/
def jsonLookup (j : Json) (key : String) : Option Json :=
  match j with
  | .obj kvs => kvs.lookup key
  | _ => none

/-- Python subscription `j[key]`: `KeyError` on a dict without the key,
`TypeError` on non-dicts (string/list/int subscription by a string key). -/
def getItem : Json → String → Except PyExc Json
  | .obj kvs, key =>
    match kvs.lookup key with
    | some v => .ok v
    | none => .error (.keyError key)
  | _, _ => .error .typeError

/-- Python `j.get(key, default)`: only dicts have `.get`; anything else
raises `AttributeError`. -/
def dictGet : Json → String → Json → Except PyExc Json
  | .obj kvs, key, dflt => .ok ((kvs.lookup key).getD dflt)
  | _, _, _ => .error .attributeError

/-- Python `j.get(key)` with no default: missing keys yield `None`. -/
def dictGetOpt (j : Json) (key : String) : Except PyExc Json :=
  dictGet j key .null

/-- Python `len`: defined for lists, strings and dicts; `TypeError`
otherwise. -/
def pyLen : Json → Except PyExc Nat
  | .arr l => .ok l.length
  | .str s => .ok s.length
  | .obj kvs => .ok kvs.length
  | _ => .error .typeError

/-- Python iteration `for pred in predictions`: lists yield elements,
strings yield one-character strings, dicts yield their keys; `TypeError`
otherwise. -/
def pyElems : Json → Except PyExc (List Json)
  | .arr l => .ok l
  | .str s => .ok (s.toList.map fun c => .str (String.mk [c]))
  | .obj kvs => .ok (kvs.map fun kv => .str kv.1)
  | _ => .error .typeError

/-- An RGB triple, as in the script's fixed palette. -/
abbrev RGB := Nat × Nat × Nat

/-- The fixed 12-entry palette of `get_color_for_class`. -/
def color_palette : List RGB :=
  [ (255, 0, 0),     -- red
    (0, 255, 0),     -- green
    (0, 0, 255),     -- blue
    (255, 255, 0),   -- yellow
    (255, 0, 255),   -- magenta
    (0, 255, 255),   -- cyan
    (128, 0, 0),     -- maroon
    (0, 128, 0),     -- dark green
    (0, 0, 128),     -- navy
    (128, 128, 0),   -- olive
    (128, 0, 128),   -- purple
    (0, 128, 128) ]  -- teal

/-- The global `class_colors` dictionary, in insertion order. -/
abbrev ColorState := List (Json × RGB)

/-- Dictionary membership/lookup for `class_colors`, using Python key
equality. -/
def lookupColor : ColorState → Json → Option RGB
  | [], _ => none
  | (k, c) :: rest, key => if pyKeyEq key k then some c else lookupColor rest key

/-- `get_color_for_class`: return the remembered color, or assign
`color_palette[len(class_colors) % len(color_palette)]` to a first-seen
class name (the dictionary grows by appending, as Python dicts preserve
insertion order). -/
def get_color_for_class (cs : ColorState) (class_name : Json) : RGB × ColorState :=
  match lookupColor cs class_name with
  | some c => (c, cs)
  | none =>
    let assigned_color := color_palette.getD (cs.length % color_palette.length) (0, 0, 0)
    (assigned_color, cs ++ [(class_name, assigned_color)])

/-- Experiment harness for the Color Registry claims: call
`get_color_for_class` once per name, in order, collecting the returned
colors and threading the state. -/
def assignSeq : ColorState → List String → List RGB × ColorState
  | cs, [] => ([], cs)
  | cs, n :: rest =>
    let r1 := get_color_for_class cs (.str n)
    let r2 := assignSeq r1.2 rest
    (r1.1 :: r2.1, r2.2)

theorem lookupColor_append (cs1 cs2 : ColorState) (k : Json) :
    lookupColor (cs1 ++ cs2) k =
      match lookupColor cs1 k with
      | some c => some c
      | none => lookupColor cs2 k := by
  induction cs1 with
  | nil => simp [lookupColor]
  | cons hd tl ih =>
    obtain ⟨k1, c1⟩ := hd
    by_cases h : pyKeyEq k k1 = true
    · simp [lookupColor, h]
    · simp only [Bool.not_eq_true] at h
      simp [lookupColor, h, ih]

theorem pyKeyEq_str (a b : String) : pyKeyEq (.str a) (.str b) = (a == b) := rfl

/-- Standard base64 alphabet, as used by Python's `base64.b64encode`. -/
def b64Alphabet : List Char :=
  [ 'A','B','C','D','E','F','G','H','I','J','K','L','M',
    'N','O','P','Q','R','S','T','U','V','W','X','Y','Z',
    'a','b','c','d','e','f','g','h','i','j','k','l','m',
    'n','o','p','q','r','s','t','u','v','w','x','y','z',
    '0','1','2','3','4','5','6','7','8','9','+','/' ]

/-- The alphabet character for a 6-bit value. -/
def encodeChar (v : Nat) : Char := b64Alphabet.getD v 'A'

/-- The 6-bit value of an alphabet character, if any. -/
def decodeCharVal (c : Char) : Option Nat := b64Alphabet.findIdx? (· == c)

/-- Base64 encoding of a byte list (RFC 4648 with `=` padding, as
`base64.b64encode` produces). -/
def b64encode : List Nat → List Char
  | [] => []
  | [b1] =>
    [encodeChar (b1 / 4), encodeChar (b1 % 4 * 16), '=', '=']
  | [b1, b2] =>
    [encodeChar (b1 / 4), encodeChar (b1 % 4 * 16 + b2 / 16), encodeChar (b2 % 16 * 4), '=']
  | b1 :: b2 :: b3 :: rest =>
    encodeChar (b1 / 4) :: encodeChar (b1 % 4 * 16 + b2 / 16) ::
      encodeChar (b2 % 16 * 4 + b3 / 64) :: encodeChar (b3 % 64) :: b64encode rest

/-- Decode one base64 quantum of four characters (the last quantum may be
padded with one or two `=`). -/
def b64chunk (c1 c2 c3 c4 : Char) : Option (List Nat) :=
  match decodeCharVal c1, decodeCharVal c2 with
  | some v1, some v2 =>
    if c3 = '=' then
      if c4 = '=' then some [v1 * 4 + v2 / 16] else none
    else
      match decodeCharVal c3 with
      | some v3 =>
        if c4 = '=' then some [v1 * 4 + v2 / 16, v2 % 16 * 16 + v3 / 4]
        else
          match decodeCharVal c4 with
          | some v4 => some [v1 * 4 + v2 / 16, v2 % 16 * 16 + v3 / 4, v3 % 4 * 64 + v4]
          | none => none
      | none => none
  | _, _ => none

/-- Base64 decoding: four characters at a time. -/
def b64decode : List Char → Option (List Nat)
  | [] => some []
  | c1 :: c2 :: c3 :: c4 :: rest =>
    match b64chunk c1 c2 c3 c4, b64decode rest with
    | some bs, some rest1 => some (bs ++ rest1)
    | _, _ => none
  | _ => none

/-- String versions, matching `base64.b64encode(...).decode('utf-8')`. -/
def b64encodeStr (bs : List Nat) : String := String.mk (b64encode bs)

/-- Base64-decode a string back to bytes. -/
def b64decodeStr (s : String) : Option (List Nat) := b64decode s.toList

theorem decodeCharVal_encodeChar (v : Nat) (h : v < 64) :
    decodeCharVal (encodeChar v) = some v := by
  have h64 : ∀ w : Fin 64, decodeCharVal (encodeChar w.val) = some w.val := by decide
  exact h64 ⟨v, h⟩

theorem encodeChar_ne_pad (v : Nat) (h : v < 64) : encodeChar v ≠ '=' := by
  have h64 : ∀ w : Fin 64, encodeChar w.val ≠ '=' := by decide
  exact h64 ⟨v, h⟩

theorem b64_roundtrip : ∀ bs : List Nat, (∀ b ∈ bs, b < 256) →
    b64decode (b64encode bs) = some bs
  | [], _ => rfl
  | [b1], h => by
    have h1 : b1 < 256 := h b1 (by simp)
    have e1 := decodeCharVal_encodeChar (b1 / 4) (by omega)
    have e2 := decodeCharVal_encodeChar (b1 % 4 * 16) (by omega)
    simp only [b64encode, b64decode, b64chunk, e1, e2]
    simp only [if_true, Option.some.injEq, List.cons.injEq, List.append_nil, and_true]
    omega
  | [b1, b2], h => by
    have h1 : b1 < 256 := h b1 (by simp)
    have h2 : b2 < 256 := h b2 (by simp)
    have e1 := decodeCharVal_encodeChar (b1 / 4) (by omega)
    have e2 := decodeCharVal_encodeChar (b1 % 4 * 16 + b2 / 16) (by omega)
    have e3 := decodeCharVal_encodeChar (b2 % 16 * 4) (by omega)
    have n3 := encodeChar_ne_pad (b2 % 16 * 4) (by omega)
    simp only [b64encode, b64decode, b64chunk, e1, e2, e3, if_neg n3]
    simp only [if_true, Option.some.injEq, List.cons.injEq, List.append_nil, and_true]
    omega
  | b1 :: b2 :: b3 :: b4 :: rest, h => by
    have h1 : b1 < 256 := h b1 (by simp)
    have h2 : b2 < 256 := h b2 (by simp)
    have h3 : b3 < 256 := h b3 (by simp)
    have ih := b64_roundtrip (b4 :: rest) (fun b hb => h b (by simp at hb ⊢; tauto))
    have e1 := decodeCharVal_encodeChar (b1 / 4) (by omega)
    have e2 := decodeCharVal_encodeChar (b1 % 4 * 16 + b2 / 16) (by omega)
    have e3 := decodeCharVal_encodeChar (b2 % 16 * 4 + b3 / 64) (by omega)
    have e4 := decodeCharVal_encodeChar (b3 % 64) (by omega)
    have n3 := encodeChar_ne_pad (b2 % 16 * 4 + b3 / 64) (by omega)
    have n4 := encodeChar_ne_pad (b3 % 64) (by omega)
    simp only [b64encode, b64decode, b64chunk, e1, e2, e3, e4, if_neg n3, if_neg n4, ih]
    simp only [List.cons_append, List.nil_append, Option.some.injEq, List.cons.injEq,
      and_true, true_and]
    omega
  | [b1, b2, b3], h => by
    have h1 : b1 < 256 := h b1 (by simp)
    have h2 : b2 < 256 := h b2 (by simp)
    have h3 : b3 < 256 := h b3 (by simp)
    have e1 := decodeCharVal_encodeChar (b1 / 4) (by omega)
    have e2 := decodeCharVal_encodeChar (b1 % 4 * 16 + b2 / 16) (by omega)
    have e3 := decodeCharVal_encodeChar (b2 % 16 * 4 + b3 / 64) (by omega)
    have e4 := decodeCharVal_encodeChar (b3 % 64) (by omega)
    have n3 := encodeChar_ne_pad (b2 % 16 * 4 + b3 / 64) (by omega)
    have n4 := encodeChar_ne_pad (b3 % 64) (by omega)
    simp only [b64encode, b64decode, b64chunk, e1, e2, e3, e4, if_neg n3, if_neg n4]
    simp only [List.cons_append, List.nil_append, Option.some.injEq, List.cons.injEq,
      and_true, true_and]
    omega

theorem b64Str_roundtrip (bs : List Nat) (h : ∀ b ∈ bs, b < 256) :
    b64decodeStr (b64encodeStr bs) = some bs := by
  simpa [b64decodeStr, b64encodeStr, String.toList] using b64_roundtrip bs h

theorem get_color_fresh (cs : ColorState) (n : String)
    (h : lookupColor cs (.str n) = none) :
    get_color_for_class cs (.str n) =
      (color_palette.getD (cs.length % 12) (0, 0, 0),
        cs ++ [(.str n, color_palette.getD (cs.length % 12) (0, 0, 0))]) := by
  simp [get_color_for_class, h, color_palette]

theorem assignSeq_fresh : ∀ (names : List String) (cs : ColorState),
    names.Nodup → (∀ n ∈ names, lookupColor cs (.str n) = none) →
    (assignSeq cs names).1 =
        (List.range names.length).map
          (fun i => color_palette.getD ((cs.length + i) % 12) (0, 0, 0))
      ∧ (∀ m : String, lookupColor cs (.str m) = none → m ∉ names →
          lookupColor (assignSeq cs names).2 (.str m) = none)
  | [], cs, _, _ => by simp [assignSeq]
  | n :: rest, cs, hnd, hfresh => by
    have hn : lookupColor cs (.str n) = none := hfresh n (by simp)
    have hstep := get_color_fresh cs n hn
    have hndr : rest.Nodup := (List.nodup_cons.mp hnd).2
    have hnmem : n ∉ rest := (List.nodup_cons.mp hnd).1
    set c := color_palette.getD (cs.length % 12) (0, 0, 0) with hc
    set cs1 := cs ++ [(Json.str n, c)] with hcs1
    have hfresh1 : ∀ m ∈ rest, lookupColor cs1 (.str m) = none := by
      intro m hm
      rw [hcs1, lookupColor_append, hfresh m (by simp [hm])]
      have hne : (m == n) = false := by
        simp only [beq_eq_false_iff_ne, ne_eq]
        intro he; exact hnmem (he ▸ hm)
      simp [lookupColor, pyKeyEq_str, hne]
    have ih := assignSeq_fresh rest cs1 hndr hfresh1
    constructor
    · show (assignSeq cs (n :: rest)).1 = _
      have : (assignSeq cs (n :: rest)).1 = c :: (assignSeq cs1 rest).1 := by
        simp [assignSeq, hstep, hcs1]
      rw [this, ih.1]
      simp only [List.length_cons]
      rw [List.range_succ_eq_map, List.map_cons, List.map_map]
      have hlen : cs1.length = cs.length + 1 := by simp [hcs1]
      simp only [List.cons.injEq]
      refine ⟨by rw [hc, Nat.add_zero], ?_⟩
      apply List.map_congr_left
      intro i _
      simp only [Function.comp_apply, hlen]
      congr 1
      omega
    · intro m hm hmem
      have : (assignSeq cs (n :: rest)).2 = (assignSeq cs1 rest).2 := by
        simp [assignSeq, hstep, hcs1]
      rw [this]
      apply ih.2 m _ (fun hr => hmem (by simp [hr]))
      rw [hcs1, lookupColor_append, hm]
      have hne : (m == n) = false := by
        simp only [beq_eq_false_iff_ne, ne_eq]
        intro he; exact hmem (by simp [he])
      simp [lookupColor, pyKeyEq_str, hne]

/-- C3: `get_color_for_class` is deterministic and stable within a run
(a second call with the same name returns the same color and leaves the
registry unchanged); any sequence of N ≤ 12 distinct first-seen class
names receives N pairwise-distinct colors; and with 13 distinct names the
13th is assigned the same color as the 1st (palette index = number of
classes seen so far mod 12). -/
theorem c3_color_registry :
    (∀ (cs : ColorState) (n : String),
        (get_color_for_class (get_color_for_class cs (.str n)).2 (.str n)).1 =
          (get_color_for_class cs (.str n)).1 ∧
        (get_color_for_class (get_color_for_class cs (.str n)).2 (.str n)).2 =
          (get_color_for_class cs (.str n)).2)
    ∧ (∀ names : List String, names.Nodup → names.length ≤ 12 →
        (assignSeq [] names).1.Pairwise (· ≠ ·))
    ∧ (∀ names : List String, names.Nodup → names.length = 13 →
        (assignSeq [] names).1.getD 12 (0, 0, 0) =
          (assignSeq [] names).1.getD 0 (0, 0, 0)) := by
  have hassign : ∀ names : List String, names.Nodup →
      (assignSeq ([] : ColorState) names).1 =
        (List.range names.length).map
          (fun i => color_palette.getD (i % 12) (0, 0, 0)) := by
    intro names hnd
    have h := (assignSeq_fresh names [] hnd (fun n _ => rfl)).1
    simpa using h
  refine ⟨?_, ?_, ?_⟩
  · intro cs n
    cases hl : lookupColor cs (.str n) with
    | some c => simp [get_color_for_class, hl]
    | none =>
      have hstep := get_color_fresh cs n hl
      set c := color_palette.getD (cs.length % 12) (0, 0, 0) with hc
      have h2 : lookupColor (cs ++ [(Json.str n, c)]) (.str n) = some c := by
        rw [lookupColor_append, hl]
        simp [lookupColor, pyKeyEq_str]
      rw [hstep]
      simp [get_color_for_class, h2]
  · intro names hnd hlen
    rw [hassign names hnd]
    have hpal : ∀ i j : Fin 12, i ≠ j →
        color_palette.getD i.val (0, 0, 0) ≠ color_palette.getD j.val (0, 0, 0) := by
      decide
    have hinj : ∀ i ∈ List.range names.length, ∀ j ∈ List.range names.length,
        color_palette.getD (i % 12) (0, 0, 0) = color_palette.getD (j % 12) (0, 0, 0) →
        i = j := by
      intro i hi j hj hf
      rw [List.mem_range] at hi hj
      have hi12 : i < 12 := lt_of_lt_of_le hi hlen
      have hj12 : j < 12 := lt_of_lt_of_le hj hlen
      by_contra hne
      exact hpal ⟨i, hi12⟩ ⟨j, hj12⟩ (Fin.ne_of_val_ne hne)
        (by rwa [Nat.mod_eq_of_lt hi12, Nat.mod_eq_of_lt hj12] at hf)
    exact (List.nodup_range names.length).map_on hinj
  · intro names hnd hlen
    rw [hassign names hnd, hlen]
    decide

theorem c3_witness :
    ((get_color_for_class (get_color_for_class [] (.str "cat")).2 (.str "cat")).1 =
      (get_color_for_class [] (.str "cat")).1)
    ∧ (assignSeq [] ["a", "b", "c"]).1.Pairwise (· ≠ ·)
    ∧ (assignSeq []
        ["a", "b", "c", "d", "e", "f", "g", "h", "i", "j", "k", "l", "m"]).1.getD 12 (0, 0, 0) =
      (assignSeq []
        ["a", "b", "c", "d", "e", "f", "g", "h", "i", "j", "k", "l", "m"]).1.getD 0 (0, 0, 0) :=
  ⟨(c3_color_registry.1 [] "cat").1,
   c3_color_registry.2.1 ["a", "b", "c"] (by decide) (by decide),
   c3_color_registry.2.2 ["a", "b", "c", "d", "e", "f", "g", "h", "i", "j", "k", "l", "m"]
     (by decide) (by decide)⟩

-- ==================== Configuration ====================

def BASE_URL : String := ""

def INPUT_FOLDER : String := "input_images"

def FONT_PATH : String := "AI_Model/Fonts/THSarabunNew BoldItalic.ttf"

def OUTPUT_FOLDER : String := "labelme_output"

/-- `os.path.join` for a nonempty left component with no trailing slash
(both folder constants are such). -/
def pathJoin (a b : String) : String := a ++ "/" ++ b

/-- `os.path.basename`: the part after the last `/`. -/
def basenameOf (p : String) : String :=
  String.mk ((p.toList.reverse.takeWhile (· ≠ '/')).reverse)

/-- The stem of `os.path.splitext` on a separator-free name: everything
before the last `.`, except that a name whose characters before that dot
are all dots (e.g. `.bashrc`, `..`) has no extension and is its own stem. -/
def splitextStem (s : String) : String :=
  let rev := s.toList.reverse
  let ext := rev.takeWhile (· ≠ '.')
  if ext.length = rev.length then s
  else
    let stemRev := rev.drop (ext.length + 1)
    if stemRev.any (· ≠ '.') then String.mk stemRev.reverse else s

/-- The preview path `OUTPUT_FOLDER/<stem>_prediction.jpg` built at line
122-123 of the script. -/
def output_image_path_for (image_path : String) : String :=
  pathJoin OUTPUT_FOLDER (splitextStem (basenameOf image_path) ++ "_prediction.jpg")

/-- The annotation path `OUTPUT_FOLDER/<stem>.json` built at line 130. -/
def json_filename_for (image_path : String) : String :=
  pathJoin OUTPUT_FOLDER (splitextStem (basenameOf image_path) ++ ".json")

/-- An HTTP response as the script observes it: status, body text, and the
result of `resp.json()` (`none` when the body is malformed JSON, in which
case `resp.json()` raises). -/
structure HttpResponse where
  status_code : Int
  text : String
  jsonBody : Option Json

/-- Outcome of `open(image_path, "rb")` + `requests.post` inside the
`try` block: `FileNotFoundError` (the only exception the script catches),
some other exception (uncaught), or a response. -/
inductive UploadResult where
  | fileNotFound
  | raised (e : PyExc)
  | ok (resp : HttpResponse)

/-- The font used for label text: the custom TTF, or PIL's built-in
default after an `IOError` fallback. -/
inductive Font where
  | custom
  | default

/-- One in-memory drawing operation on the decoded image.  The `text` op
records the components of the label `f"{class_name}: {confidence:.2f}"`;
no claim inspects the rendered string and binary float formatting is out
of scope here. -/
inductive DrawOp where
  | rect (corner1 corner2 : Rat × Rat) (outline : RGB) (lineWidth : Nat)
  | text (pos : Rat × Rat) (label confidence : Json) (font : Font) (fill : RGB)

/-- A decoded PIL image: its size plus the drawing ops applied to the
in-memory copy. -/
structure PILImage where
  width : Int
  height : Int
  ops : List DrawOp

/-- Python numeric coercion as needed by `draw.rectangle` coordinates and
`x + w`: non-numeric values raise `TypeError` at the drawing call. -/
def toRat : Json → Except PyExc Rat
  | .num q => .ok q
  | _ => .error .typeError

/-- Contents written to the output folder. -/
inductive FileContent where
  | preview (img : PILImage)
  | jsonDoc (doc : Json)
  | copyOf (bytes : List Nat)

/-- Observable side effects of a run, in order. -/
inductive Effect where
  | print (msg : String)
  | printValue (val : Json)
  | mkdir (path : String)
  | writeFile (path : String) (content : FileContent)

/-- Whether an effect writes a file. -/
def Effect.isWrite : Effect → Bool
  | .writeFile _ _ => true
  | _ => false

/-- The world a single `process_image` call interacts with: the outcome of
the prediction upload, the outcome of `Image.open`, the input file's bytes
on disk, and whether a PIL drawing call raises. -/
structure ImageEnv where
  uploadResult : UploadResult
  decodeResult : Except PyExc PILImage
  fileBytes : List Nat
  drawExc : Option PyExc

/-- `generate_labelme_json`: the LabelMe document with the input file's
bytes embedded base64-encoded in `imageData`. -/
def generate_labelme_json (image_path : String) (fileBytes : List Nat)
    (shapes : List Json) (image_width image_height : Int) : Json :=
  let image_data := b64encodeStr fileBytes
  .obj [("version", .str "5.0.1"),
        ("flags", .obj []),
        ("shapes", .arr shapes),
        ("imagePath", .str (basenameOf image_path)),
        ("imageData", .str image_data),
        ("imageWidth", .num image_width),
        ("imageHeight", .num image_height)]

/-- The `for pred in predictions` loop of `process_image`: extract the six
record fields (an uncaught `KeyError` if one is missing), assign the class
color, draw the box and label, and append the LabelMe shape.  The color
registry mutations made before an exception persist; on an exception the
partial shapes/image are discarded by the caller. -/
def processPreds (env : ImageEnv) (font : Font) :
    List Json → PILImage → ColorState → (PILImage × List Json × ColorState) × Option PyExc
  | [], image, cs => ((image, [], cs), none)
  | pred :: rest, image, cs =>
    match getItem pred "x" with
    | .error e => ((image, [], cs), some e)
    | .ok xj =>
      match getItem pred "y" with
      | .error e => ((image, [], cs), some e)
      | .ok yj =>
        match getItem pred "w" with
        | .error e => ((image, [], cs), some e)
        | .ok wj =>
          match getItem pred "h" with
          | .error e => ((image, [], cs), some e)
          | .ok hj =>
            match getItem pred "class_name" with
            | .error e => ((image, [], cs), some e)
            | .ok class_namej =>
              match getItem pred "confidence" with
              | .error e => ((image, [], cs), some e)
              | .ok confidencej =>
                let rc := get_color_for_class cs class_namej
                let color := rc.1
                let cs1 := rc.2
                match toRat xj, toRat yj, toRat wj, toRat hj with
                | .ok x, .ok y, .ok w, .ok h =>
                  match env.drawExc with
                  | some e => ((image, [], cs1), some e)
                  | none =>
                    let image1 : PILImage := { image with ops := image.ops ++
                      [.rect (x, y) (x + w, y + h) color 2,
                       .text (x, y - 20) class_namej confidencej font color] }
                    let shape : Json := .obj [("label", class_namej),
                      ("points", .arr [.arr [.num x, .num y],
                                       .arr [.num (x + w), .num (y + h)]]),
                      ("group_id", .null),
                      ("shape_type", .str "rectangle"),
                      ("flags", .obj [])]
                    match processPreds env font rest image1 cs1 with
                    | ((image2, shapes, cs2), exc) => ((image2, shape :: shapes, cs2), exc)
                | _, _, _, _ => ((image, [], cs1), some .typeError)

/-- `process_image`: upload the image (only `FileNotFoundError` is caught),
require status 201, parse `result` and `image_info` with empty-list
defaults, decode the image, run the prediction loop, then save the
preview, the LabelMe JSON and a copy of the original.  The third result
component is an exception propagating out of the call. -/
def process_image (env : ImageEnv) (image_path prediction_url : String)
    (headers : List (String × String)) (font : Font) (cs : ColorState) :
    List Effect × ColorState × Option PyExc :=
  let eff0 : List Effect := [.print ("\nProcessing image: " ++ image_path)]
  match env.uploadResult with
  | .fileNotFound =>
    (eff0 ++ [.print ("Error: Image not found at " ++ image_path)], cs, none)
  | .raised e => (eff0, cs, some e)
  | .ok resp =>
    if resp.status_code ≠ 201 then
      (eff0 ++ [.print ("Prediction failed for " ++ image_path ++ ": " ++ resp.text)], cs, none)
    else
      match resp.jsonBody with
      | none => (eff0, cs, some .jsonDecodeError)
      | some body =>
        match dictGet body "result" (.arr []) with
        | .error e => (eff0, cs, some e)
        | .ok result =>
          match pyLen result with
          | .error e => (eff0, cs, some e)
          | .ok n =>
            let eff1 := eff0 ++
              [.print ("Received " ++ toString n ++ " predictions for " ++ basenameOf image_path)]
            match dictGet body "image_info" (.arr []) with
            | .error e => (eff1, cs, some e)
            | .ok image_info =>
              let eff2 := eff1 ++ [.printValue image_info]
              match env.decodeResult with
              | .error e => (eff2, cs, some e)
              | .ok image =>
                match pyElems result with
                | .error e => (eff2, cs, some e)
                | .ok preds =>
                  match processPreds env font preds image cs with
                  | ((_, _, cs2), some e) => (eff2, cs2, some e)
                  | ((image2, shapes, cs2), none) =>
                    let output_image_path := output_image_path_for image_path
                    let eff3 := eff2 ++
                      [.writeFile output_image_path (.preview image2),
                       .print ("Saved preview image with predictions to: " ++ output_image_path)]
                    let labelme_json := generate_labelme_json image_path env.fileBytes shapes
                      image2.width image2.height
                    let json_filename := json_filename_for image_path
                    let eff4 := eff3 ++
                      [.writeFile json_filename (.jsonDoc labelme_json),
                       .print ("Saved LabelMe annotation JSON to: " ++ json_filename)]
                    let image_copy_path := pathJoin OUTPUT_FOLDER (basenameOf image_path)
                    (eff4 ++
                      [.writeFile image_copy_path (.copyOf env.fileBytes),
                       .print ("Copied original image to: " ++ image_copy_path)], cs2, none)

/-- Python `str()` of a token value, as interpolated into the
`Authorization` header.  Only string tokens occur in practice; the header
is dead data in this model (the environment supplies every response), so
the non-string renderings are rough. -/
def pyStrJ : Json → String
  | .str s => s
  | .null => "None"
  | .bool true => "True"
  | .bool false => "False"
  | .num q => toString q.num ++ "/" ++ toString q.den
  | .arr _ => ""
  | .obj _ => ""

/-- The world a whole run interacts with: the login response, whether the
custom font loads, whether the input folder exists, its directory listing,
and the per-file world for each image path. -/
structure MainEnv where
  loginResult : Except PyExc HttpResponse
  fontLoadOk : Bool
  inputFolderExists : Bool
  inputListing : List String
  perImage : String → ImageEnv

/-- The `for image_file in image_files` loop of `main`: process each file
in order, threading the color registry; an exception escaping
`process_image` terminates the whole run (there is no try/except around
the loop). -/
def runBatch (prediction_url : String) (headers : List (String × String)) (font : Font) :
    List (String × ImageEnv) → ColorState → List Effect × ColorState × Option PyExc
  | [], cs => ([], cs, none)
  | (p, ienv) :: rest, cs =>
    match process_image ienv p prediction_url headers font cs with
    | (effs, cs1, some e) => (effs, cs1, some e)
    | (effs, cs1, none) =>
      let r := runBatch prediction_url headers font rest cs1
      (effs ++ r.1, r.2.1, r.2.2)

/-- The script's `main` (that name is reserved by Lean): log in (non-200
or falsy token aborts), create the output folder, load the font with a
default fallback, check the input folder, filter the listing by image
extensions, and run the batch. -/
def main_run (env : MainEnv) : List Effect × ColorState × Option PyExc :=
  let eff0 : List Effect := [.print "=== Logging in ==="]
  match env.loginResult with
  | .error e => (eff0, [], some e)
  | .ok resp =>
    if resp.status_code ≠ 200 then
      (eff0 ++ [.print ("Login failed: " ++ resp.text)], [], none)
    else
      match resp.jsonBody with
      | none => (eff0, [], some .jsonDecodeError)
      | some body =>
        match dictGetOpt body "access_token" with
        | .error e => (eff0, [], some e)
        | .ok access_token =>
          if !pyTruthy access_token then
            (eff0 ++ [.print "Access token not found in response."], [], none)
          else
            let eff1 := eff0 ++ [.print "Login successful!\n", .mkdir OUTPUT_FOLDER]
            let prediction_url := BASE_URL ++ "/predictionbox"
            let headers := [("Authorization", "Bearer " ++ pyStrJ access_token)]
            let fontPair : List Effect × Font :=
              if env.fontLoadOk then (eff1, .custom)
              else (eff1 ++ [.print "Warning: Custom font not found, using default."], .default)
            let eff2 := fontPair.1
            let font := fontPair.2
            if !env.inputFolderExists then
              (eff2 ++ [.print ("Input folder '" ++ INPUT_FOLDER ++ "' does not exist.")], [], none)
            else
              let image_files := env.inputListing.filter fun f =>
                f.toLower.endsWith ".png" || f.toLower.endsWith ".jpg" || f.toLower.endsWith ".jpeg"
              if image_files.isEmpty then
                (eff2 ++ [.print ("No image files found in folder '" ++ INPUT_FOLDER ++ "'.")], [], none)
              else
                let r := runBatch prediction_url headers font
                  (image_files.map fun f =>
                    let p := pathJoin INPUT_FOLDER f
                    (p, env.perImage p)) []
                (eff2 ++ r.1, r.2.1, r.2.2)

/-- The final contents of the filesystem after a list of effects: a later
`writeFile` to a path silently replaces an earlier one (`image.save`,
`open(..., "w")` and `shutil.copy` all overwrite). -/
def finalFS (effs : List Effect) : String → Option FileContent :=
  effs.foldl
    (fun fs e =>
      match e with
      | Effect.writeFile p c => fun q => if q = p then some c else fs q
      | _ => fs)
    (fun _ => none)

/-- How many of the effects write to the given path. -/
def countWritesTo (effs : List Effect) (p : String) : Nat :=
  effs.countP fun e =>
    match e with
    | Effect.writeFile q _ => q == p
    | _ => false

/-- The annotation documents written by a list of effects, in order. -/
def writtenDocs (effs : List Effect) : List Json :=
  effs.filterMap fun e =>
    match e with
    | Effect.writeFile _ (FileContent.jsonDoc d) => some d
    | _ => none

/-- C4: the Annotation Document's `imageData`, base64-decoded, is
byte-for-byte the original input file's contents as read from disk. -/
theorem c4_imageData_roundtrip (image_path : String) (bytes : List Nat)
    (shapes : List Json) (w h : Int) (hbytes : ∀ b ∈ bytes, b < 256) :
    jsonLookup (generate_labelme_json image_path bytes shapes w h) "imageData" =
      some (.str (b64encodeStr bytes))
    ∧ b64decodeStr (b64encodeStr bytes) = some bytes := by
  constructor
  · rfl
  · exact b64Str_roundtrip bytes hbytes

theorem c4_witness :
    jsonLookup (generate_labelme_json "input_images/a.jpg" [77, 97, 110] [] 640 480)
        "imageData" = some (.str (b64encodeStr [77, 97, 110]))
    ∧ b64decodeStr (b64encodeStr [77, 97, 110]) = some [77, 97, 110] :=
  c4_imageData_roundtrip "input_images/a.jpg" [77, 97, 110] [] 640 480 (by decide)

/-- C6: a prediction response with any status other than 201 produces no
output files for that image (the only effects are the two log lines), the
call returns without an exception, and the batch continues with the
remaining files from an unchanged color registry. -/
theorem c6_non201_no_outputs (p u : String) (hs : List (String × String)) (font : Font)
    (cs : ColorState) (rest : List (String × ImageEnv)) (resp : HttpResponse)
    (dec : Except PyExc PILImage) (bytes : List Nat) (dx : Option PyExc)
    (h : resp.status_code ≠ 201) :
    process_image ⟨.ok resp, dec, bytes, dx⟩ p u hs font cs =
        ([.print ("\nProcessing image: " ++ p),
          .print ("Prediction failed for " ++ p ++ ": " ++ resp.text)], cs, none)
    ∧ ((process_image ⟨.ok resp, dec, bytes, dx⟩ p u hs font cs).1.all
        fun e => !e.isWrite) = true
    ∧ runBatch u hs font ((p, ⟨.ok resp, dec, bytes, dx⟩) :: rest) cs =
        ((process_image ⟨.ok resp, dec, bytes, dx⟩ p u hs font cs).1 ++
            (runBatch u hs font rest cs).1,
          (runBatch u hs font rest cs).2.1,
          (runBatch u hs font rest cs).2.2) := by
  have h1 : process_image ⟨.ok resp, dec, bytes, dx⟩ p u hs font cs =
      ([.print ("\nProcessing image: " ++ p),
        .print ("Prediction failed for " ++ p ++ ": " ++ resp.text)], cs, none) := by
    simp [process_image, h]
  refine ⟨h1, ?_, ?_⟩
  · rw [h1]
    rfl
  · simp [runBatch, h1]

theorem c6_witness :
    process_image ⟨.ok ⟨500, "server error", none⟩, .ok ⟨5, 5, []⟩, [1], none⟩
        "input_images/b.png" "" [] .custom [] =
      ([.print ("\nProcessing image: " ++ "input_images/b.png"),
        .print ("Prediction failed for " ++ "input_images/b.png" ++ ": " ++ "server error")],
       [], none) :=
  (c6_non201_no_outputs "input_images/b.png" "" [] .custom [] []
    ⟨500, "server error", none⟩ (.ok ⟨5, 5, []⟩) [1] none (by decide)).1

/-- C7: a non-200 login response, or a 200 response without an
`access_token` field, terminates the run right after the failure log: the
effects are exactly the two log lines, so the output folder is never
created and no image is processed. -/
theorem c7_auth_failure_aborts :
    (∀ (env : MainEnv) (resp : HttpResponse), env.loginResult = .ok resp →
      resp.status_code ≠ 200 →
      main_run env =
        ([.print "=== Logging in ===", .print ("Login failed: " ++ resp.text)], [], none))
    ∧ (∀ (env : MainEnv) (t : String) (kvs : List (String × Json)),
        env.loginResult = .ok ⟨200, t, some (.obj kvs)⟩ →
        kvs.lookup "access_token" = none →
        main_run env =
          ([.print "=== Logging in ===", .print "Access token not found in response."],
           [], none)) := by
  constructor
  · intro env resp hlog hst
    simp [main_run, hlog, hst]
  · intro env t kvs hlog hmiss
    simp [main_run, hlog, dictGetOpt, dictGet, hmiss, pyTruthy]

theorem c7_witness :
    main_run ⟨.ok ⟨401, "unauthorized", none⟩, true, true, [], fun _ => ⟨.fileNotFound, .error .imageDecodeError, [], none⟩⟩ =
      ([.print "=== Logging in ===", .print ("Login failed: " ++ "unauthorized")], [], none) :=
  c7_auth_failure_aborts.1
    ⟨.ok ⟨401, "unauthorized", none⟩, true, true, [], fun _ => ⟨.fileNotFound, .error .imageDecodeError, [], none⟩⟩
    ⟨401, "unauthorized", none⟩ rfl (by decide)

/-- C9: a 200 login whose `access_token` field holds any falsy value (the
empty string, `null`, `0`, ...) aborts exactly like a missing field: the
`if not access_token` check rejects every falsy token. -/
theorem c9_falsy_token_aborts (env : MainEnv) (t : String)
    (kvs : List (String × Json)) (v : Json)
    (hlog : env.loginResult = .ok ⟨200, t, some (.obj kvs)⟩)
    (hv : kvs.lookup "access_token" = some v)
    (hfalsy : pyTruthy v = false) :
    main_run env =
      ([.print "=== Logging in ===", .print "Access token not found in response."],
       [], none) := by
  simp [main_run, hlog, dictGetOpt, dictGet, hv, hfalsy]

theorem c9_witness :
    main_run ⟨.ok ⟨200, "", some (.obj [("access_token", .str "")])⟩, true, true, [],
        fun _ => ⟨.fileNotFound, .error .imageDecodeError, [], none⟩⟩ =
      ([.print "=== Logging in ===", .print "Access token not found in response."],
       [], none) :=
  c9_falsy_token_aborts
    ⟨.ok ⟨200, "", some (.obj [("access_token", .str "")])⟩, true, true, [],
      fun _ => ⟨.fileNotFound, .error .imageDecodeError, [], none⟩⟩
    "" [("access_token", .str "")] (.str "") rfl rfl rfl

/-- C8: with zero Detection Records the loop performs no drawing (the
preview is the decoded image unchanged) and the document's shapes list is
empty, yet all three artifacts — preview, annotation JSON, and copy of the
original — are still written. -/
theorem c8_zero_detections (p u t : String) (hs : List (String × String)) (font : Font)
    (cs : ColorState) (kvs : List (String × Json)) (img : PILImage) (bytes : List Nat)
    (dx : Option PyExc)
    (hres : kvs.lookup "result" = some (.arr [])) :
    process_image ⟨.ok ⟨201, t, some (.obj kvs)⟩, .ok img, bytes, dx⟩ p u hs font cs =
      ([.print ("\nProcessing image: " ++ p),
        .print ("Received " ++ toString (0 : Nat) ++ " predictions for " ++ basenameOf p),
        .printValue ((kvs.lookup "image_info").getD (.arr [])),
        .writeFile (output_image_path_for p) (.preview img),
        .print ("Saved preview image with predictions to: " ++ output_image_path_for p),
        .writeFile (json_filename_for p)
          (.jsonDoc (generate_labelme_json p bytes [] img.width img.height)),
        .print ("Saved LabelMe annotation JSON to: " ++ json_filename_for p),
        .writeFile (pathJoin OUTPUT_FOLDER (basenameOf p)) (.copyOf bytes),
        .print ("Copied original image to: " ++ pathJoin OUTPUT_FOLDER (basenameOf p))],
       cs, none) := by
  simp [process_image, dictGet, hres, pyLen, pyElems, processPreds]

theorem c8_witness :
    process_image ⟨.ok ⟨201, "", some (.obj [("result", .arr [])])⟩, .ok ⟨640, 480, []⟩, [7], none⟩
        "input_images/a.jpg" "" [] .custom [] =
      ([.print ("\nProcessing image: " ++ "input_images/a.jpg"),
        .print ("Received " ++ toString (0 : Nat) ++ " predictions for " ++ basenameOf "input_images/a.jpg"),
        .printValue (([("result", Json.arr [])].lookup "image_info").getD (.arr [])),
        .writeFile (output_image_path_for "input_images/a.jpg") (.preview ⟨640, 480, []⟩),
        .print ("Saved preview image with predictions to: " ++ output_image_path_for "input_images/a.jpg"),
        .writeFile (json_filename_for "input_images/a.jpg")
          (.jsonDoc (generate_labelme_json "input_images/a.jpg" [7] []
            (PILImage.mk 640 480 []).width (PILImage.mk 640 480 []).height)),
        .print ("Saved LabelMe annotation JSON to: " ++ json_filename_for "input_images/a.jpg"),
        .writeFile (pathJoin OUTPUT_FOLDER (basenameOf "input_images/a.jpg")) (.copyOf [7]),
        .print ("Copied original image to: " ++ pathJoin OUTPUT_FOLDER (basenameOf "input_images/a.jpg"))],
       [], none) :=
  c8_zero_detections "input_images/a.jpg" "" "" [] .custom [] [("result", .arr [])]
    ⟨640, 480, []⟩ [7] none rfl

/-- C10: the preview and annotation paths depend only on the input file's
basename stem, so two inputs with equal stems and different extensions
(`a.jpg`, `a.png`) collide on both paths; in a run processing both, each
path is written twice and the later file's contents silently replace the
earlier file's. -/
theorem c10_output_path_collision :
    (∀ p1 p2 : String, splitextStem (basenameOf p1) = splitextStem (basenameOf p2) →
      output_image_path_for p1 = output_image_path_for p2 ∧
      json_filename_for p1 = json_filename_for p2)
    ∧ splitextStem (basenameOf "input_images/a.jpg") = "a"
    ∧ splitextStem (basenameOf "input_images/a.png") = "a"
    ∧ (let effs := (runBatch "" [] .custom
          [(pathJoin INPUT_FOLDER "a.jpg",
            ⟨.ok ⟨201, "", some (.obj [])⟩, .ok ⟨5, 5, []⟩, [1], none⟩),
           (pathJoin INPUT_FOLDER "a.png",
            ⟨.ok ⟨201, "", some (.obj [])⟩, .ok ⟨7, 7, []⟩, [2], none⟩)] []).1
       countWritesTo effs (output_image_path_for "input_images/a.jpg") = 2 ∧
       countWritesTo effs (json_filename_for "input_images/a.jpg") = 2 ∧
       finalFS effs (output_image_path_for "input_images/a.jpg") =
         some (.preview ⟨7, 7, []⟩) ∧
       finalFS effs (json_filename_for "input_images/a.jpg") =
         some (.jsonDoc (generate_labelme_json "input_images/a.png" [2] [] 7 7))) := by
  refine ⟨?_, rfl, rfl, ?_⟩
  · intro p1 p2 hstem
    unfold output_image_path_for json_filename_for
    rw [hstem]
    exact ⟨rfl, rfl⟩
  · exact ⟨by decide, by decide, rfl, rfl⟩

theorem c10_witness :
    output_image_path_for "input_images/a.jpg" = output_image_path_for "input_images/a.png" ∧
    json_filename_for "input_images/a.jpg" = json_filename_for "input_images/a.png" :=
  c10_output_path_collision.1 "input_images/a.jpg" "input_images/a.png" rfl

/-- A Detection Record as C5 quantifies over them: an object with numeric
`x`, `y`, `w`, `h` and with `class_name` and `confidence` present. -/
def wfPred (pred : Json) : Bool :=
  (match jsonLookup pred "x" with | some (.num _) => true | _ => false) &&
  (match jsonLookup pred "y" with | some (.num _) => true | _ => false) &&
  (match jsonLookup pred "w" with | some (.num _) => true | _ => false) &&
  (match jsonLookup pred "h" with | some (.num _) => true | _ => false) &&
  (jsonLookup pred "class_name").isSome && (jsonLookup pred "confidence").isSome

/-- The numeric value of a field of a well-formed Detection Record. -/
def ratAt (pred : Json) (key : String) : Rat :=
  match jsonLookup pred key with
  | some (.num q) => q
  | _ => 0

/-- The Shape Record the script emits for one Detection Record: label =
`class_name`, points = `[[x, y], [x+w, y+h]]`, `group_id` bound to null,
shape_type `"rectangle"`, empty flags. -/
def predShape (pred : Json) : Json :=
  .obj [("label", (jsonLookup pred "class_name").getD .null),
        ("points", .arr [.arr [.num (ratAt pred "x"), .num (ratAt pred "y")],
                         .arr [.num (ratAt pred "x" + ratAt pred "w"),
                               .num (ratAt pred "y" + ratAt pred "h")]]),
        ("group_id", .null),
        ("shape_type", .str "rectangle"),
        ("flags", .obj [])]

theorem lookup_num_of_wf (pred : Json) (key : String)
    (h : (match jsonLookup pred key with | some (.num _) => true | _ => false) = true) :
    jsonLookup pred key = some (.num (ratAt pred key)) := by
  rcases hl : jsonLookup pred key with _ | v
  · rw [hl] at h
    simp at h
  · cases v <;> rw [hl] at h <;> simp [ratAt, hl] at h ⊢

theorem getItem_of_lookup {pred : Json} {key : String} {v : Json}
    (h : jsonLookup pred key = some v) : getItem pred key = .ok v := by
  cases pred <;> simp [jsonLookup] at h <;> simp [getItem, h]

theorem processPreds_wf (env : ImageEnv) (font : Font) (hdx : env.drawExc = none) :
    ∀ (preds : List Json) (image : PILImage) (cs : ColorState),
      (∀ q ∈ preds, wfPred q = true) →
      ∃ image2 cs2,
        processPreds env font preds image cs = ((image2, preds.map predShape, cs2), none)
        ∧ image2.width = image.width ∧ image2.height = image.height := by
  intro preds
  induction preds with
  | nil => exact fun image cs _ => ⟨image, cs, rfl, rfl, rfl⟩
  | cons pred rest ih =>
    intro image cs hwf
    have hp := hwf pred (by simp)
    simp only [wfPred, Bool.and_eq_true] at hp
    obtain ⟨⟨⟨⟨⟨hx, hy⟩, hw⟩, hh⟩, hcn⟩, hcf⟩ := hp
    obtain ⟨cv, hcv⟩ := Option.isSome_iff_exists.mp hcn
    obtain ⟨fv, hfv⟩ := Option.isSome_iff_exists.mp hcf
    have gx := getItem_of_lookup (lookup_num_of_wf pred "x" hx)
    have gy := getItem_of_lookup (lookup_num_of_wf pred "y" hy)
    have gw := getItem_of_lookup (lookup_num_of_wf pred "w" hw)
    have gh := getItem_of_lookup (lookup_num_of_wf pred "h" hh)
    have gcn := getItem_of_lookup hcv
    have gcf := getItem_of_lookup hfv
    set cs1 := (get_color_for_class cs cv).2 with hcs1
    set image1 : PILImage := { image with ops := image.ops ++
      [.rect (ratAt pred "x", ratAt pred "y")
             (ratAt pred "x" + ratAt pred "w", ratAt pred "y" + ratAt pred "h")
             (get_color_for_class cs cv).1 2,
       .text (ratAt pred "x", ratAt pred "y" - 20) cv fv font
             (get_color_for_class cs cv).1] } with himage1
    obtain ⟨img2, cs2, hrec, hww, hhh⟩ :=
      ih image1 cs1 (fun q hq => hwf q (by simp [hq]))
    refine ⟨img2, cs2, ?_, ?_, ?_⟩
    · simp only [processPreds, gx, gy, gw, gh, gcn, gcf, hdx, toRat, ← hcs1, ← himage1,
        hrec, List.map_cons]
      simp [predShape, hcv]
    · rw [hww, himage1]
    · rw [hhh, himage1]

theorem runBatch_cons_exc (u : String) (hs : List (String × String)) (font : Font)
    (p : String) (ienv : ImageEnv) (rest : List (String × ImageEnv)) (cs : ColorState)
    (e : PyExc) (h : (process_image ienv p u hs font cs).2.2 = some e) :
    runBatch u hs font ((p, ienv) :: rest) cs = process_image ienv p u hs font cs := by
  rcases hp : process_image ienv p u hs font cs with ⟨effs, cs1, exc⟩
  rw [hp] at h
  simp only at h
  subst h
  simp [runBatch, hp]

theorem runBatch_cons_ok (u : String) (hs : List (String × String)) (font : Font)
    (p : String) (ienv : ImageEnv) (rest : List (String × ImageEnv)) (cs : ColorState)
    (h : (process_image ienv p u hs font cs).2.2 = none) :
    runBatch u hs font ((p, ienv) :: rest) cs =
      ((process_image ienv p u hs font cs).1 ++
          (runBatch u hs font rest (process_image ienv p u hs font cs).2.1).1,
        (runBatch u hs font rest (process_image ienv p u hs font cs).2.1).2.1,
        (runBatch u hs font rest (process_image ienv p u hs font cs).2.1).2.2) := by
  rcases hp : process_image ienv p u hs font cs with ⟨effs, cs1, exc⟩
  rw [hp] at h
  simp only at h
  subst h
  simp [runBatch, hp]

theorem processPreds_missing (env : ImageEnv) (font : Font) (pkvs : List (String × Json))
    (rest : List Json) (image : PILImage) (cs : ColorState)
    (h : pkvs.lookup "x" = none ∨ pkvs.lookup "y" = none ∨ pkvs.lookup "w" = none ∨
         pkvs.lookup "h" = none ∨ pkvs.lookup "class_name" = none ∨
         pkvs.lookup "confidence" = none) :
    ∃ k, (k = "x" ∨ k = "y" ∨ k = "w" ∨ k = "h" ∨ k = "class_name" ∨ k = "confidence") ∧
      processPreds env font (.obj pkvs :: rest) image cs =
        ((image, [], cs), some (.keyError k)) := by
  rcases hx : pkvs.lookup "x" with _ | xv
  · exact ⟨"x", .inl rfl, by simp [processPreds, getItem, hx]⟩
  · rcases hy : pkvs.lookup "y" with _ | yv
    · exact ⟨"y", .inr (.inl rfl), by simp [processPreds, getItem, hx, hy]⟩
    · rcases hw : pkvs.lookup "w" with _ | wv
      · exact ⟨"w", .inr (.inr (.inl rfl)), by simp [processPreds, getItem, hx, hy, hw]⟩
      · rcases hh : pkvs.lookup "h" with _ | hv
        · exact ⟨"h", .inr (.inr (.inr (.inl rfl))),
            by simp [processPreds, getItem, hx, hy, hw, hh]⟩
        · rcases hcn : pkvs.lookup "class_name" with _ | cv
          · exact ⟨"class_name", .inr (.inr (.inr (.inr (.inl rfl)))),
              by simp [processPreds, getItem, hx, hy, hw, hh, hcn]⟩
          · rcases hcf : pkvs.lookup "confidence" with _ | fv
            · exact ⟨"confidence", .inr (.inr (.inr (.inr (.inr rfl)))),
                by simp [processPreds, getItem, hx, hy, hw, hh, hcn, hcf]⟩
            · rw [hx, hy, hw, hh, hcn, hcf] at h
              simp at h

theorem processPreds_append_wf (env : ImageEnv) (font : Font) (hdx : env.drawExc = none) :
    ∀ (pre tail : List Json) (image : PILImage) (cs : ColorState),
      (∀ q ∈ pre, wfPred q = true) →
      ∃ image1 cs1,
        (processPreds env font (pre ++ tail) image cs).2 =
          (processPreds env font tail image1 cs1).2 := by
  intro pre
  induction pre with
  | nil => exact fun tail image cs _ => ⟨image, cs, rfl⟩
  | cons pred pre1 ih =>
    intro tail image cs hwf
    have hp := hwf pred (by simp)
    simp only [wfPred, Bool.and_eq_true] at hp
    obtain ⟨⟨⟨⟨⟨hx, hy⟩, hw⟩, hh⟩, hcn⟩, hcf⟩ := hp
    obtain ⟨cv, hcv⟩ := Option.isSome_iff_exists.mp hcn
    obtain ⟨fv, hfv⟩ := Option.isSome_iff_exists.mp hcf
    have gx := getItem_of_lookup (lookup_num_of_wf pred "x" hx)
    have gy := getItem_of_lookup (lookup_num_of_wf pred "y" hy)
    have gw := getItem_of_lookup (lookup_num_of_wf pred "w" hw)
    have gh := getItem_of_lookup (lookup_num_of_wf pred "h" hh)
    have gcn := getItem_of_lookup hcv
    have gcf := getItem_of_lookup hfv
    set cs1 := (get_color_for_class cs cv).2 with hcs1
    set image1 : PILImage := { image with ops := image.ops ++
      [.rect (ratAt pred "x", ratAt pred "y")
             (ratAt pred "x" + ratAt pred "w", ratAt pred "y" + ratAt pred "h")
             (get_color_for_class cs cv).1 2,
       .text (ratAt pred "x", ratAt pred "y" - 20) cv fv font
             (get_color_for_class cs cv).1] } with himage1
    obtain ⟨i1, c1, hih⟩ := ih tail image1 cs1 (fun q hq => hwf q (by simp [hq]))
    refine ⟨i1, c1, ?_⟩
    rw [← hih]
    rcases hpp : processPreds env font (pre1 ++ tail) image1 cs1 with ⟨⟨i2, sh2, c2⟩, exc⟩
    simp only [List.cons_append, processPreds, gx, gy, gw, gh, gcn, gcf, hdx, toRat,
      ← hcs1, ← himage1, List.append_eq, hpp]

/-- C1 counterexample: a batch of two files where the first file's
image-decode stage raises.  The exception is not caught: the run
terminates with it and the second file is never processed (its
"Processing image" line is never printed), refuting "the Batch Driver
proceeds to the next file unconditionally". -/
theorem c1_counterexample :
    (runBatch "" [] .custom
        [("input_images/a.jpg",
          ⟨.ok ⟨201, "", some (.obj [])⟩, .error .imageDecodeError, [], none⟩),
         ("input_images/b.png",
          ⟨.ok ⟨201, "", some (.obj [])⟩, .ok ⟨5, 5, []⟩, [], none⟩)] []).2.2 =
      some .imageDecodeError
    ∧ ((runBatch "" [] .custom
        [("input_images/a.jpg",
          ⟨.ok ⟨201, "", some (.obj [])⟩, .error .imageDecodeError, [], none⟩),
         ("input_images/b.png",
          ⟨.ok ⟨201, "", some (.obj [])⟩, .ok ⟨5, 5, []⟩, [], none⟩)] []).1.any fun e =>
        match e with
        | .print s => s == "\nProcessing image: input_images/b.png"
        | _ => false) = false :=
  ⟨rfl, rfl⟩

/-- C1 (amended): the per-image pipeline handles exactly two failures —
a `FileNotFoundError` when opening the file for upload, and a non-201
response — by logging and letting the batch proceed.  Every other
pipeline failure — another exception during the upload, malformed
response JSON, an image-decode failure, or a drawing failure —
propagates uncaught and terminates the run, so the remaining files are
never processed. -/
theorem c1_amended :
    (∀ (p u : String) (hs : List (String × String)) (font : Font) (cs : ColorState)
        (rest : List (String × ImageEnv)) (dec : Except PyExc PILImage)
        (bytes : List Nat) (dx : Option PyExc),
      process_image ⟨.fileNotFound, dec, bytes, dx⟩ p u hs font cs =
        ([.print ("\nProcessing image: " ++ p),
          .print ("Error: Image not found at " ++ p)], cs, none)
      ∧ runBatch u hs font ((p, ⟨.fileNotFound, dec, bytes, dx⟩) :: rest) cs =
          ([.print ("\nProcessing image: " ++ p),
            .print ("Error: Image not found at " ++ p)] ++
              (runBatch u hs font rest cs).1,
            (runBatch u hs font rest cs).2.1,
            (runBatch u hs font rest cs).2.2))
    ∧ (∀ (p u : String) (hs : List (String × String)) (font : Font) (cs : ColorState)
        (rest : List (String × ImageEnv)) (resp : HttpResponse)
        (dec : Except PyExc PILImage) (bytes : List Nat) (dx : Option PyExc),
      resp.status_code ≠ 201 →
      (process_image ⟨.ok resp, dec, bytes, dx⟩ p u hs font cs).2.2 = none
      ∧ (runBatch u hs font ((p, ⟨.ok resp, dec, bytes, dx⟩) :: rest) cs).2.2 =
          (runBatch u hs font rest cs).2.2)
    ∧ (∀ (p u : String) (hs : List (String × String)) (font : Font) (cs : ColorState)
        (rest : List (String × ImageEnv)) (e : PyExc) (dec : Except PyExc PILImage)
        (bytes : List Nat) (dx : Option PyExc),
      process_image ⟨.raised e, dec, bytes, dx⟩ p u hs font cs =
        ([.print ("\nProcessing image: " ++ p)], cs, some e)
      ∧ runBatch u hs font ((p, ⟨.raised e, dec, bytes, dx⟩) :: rest) cs =
          process_image ⟨.raised e, dec, bytes, dx⟩ p u hs font cs)
    ∧ (∀ (p u t : String) (hs : List (String × String)) (font : Font) (cs : ColorState)
        (rest : List (String × ImageEnv)) (dec : Except PyExc PILImage)
        (bytes : List Nat) (dx : Option PyExc),
      process_image ⟨.ok ⟨201, t, none⟩, dec, bytes, dx⟩ p u hs font cs =
        ([.print ("\nProcessing image: " ++ p)], cs, some .jsonDecodeError)
      ∧ runBatch u hs font ((p, ⟨.ok ⟨201, t, none⟩, dec, bytes, dx⟩) :: rest) cs =
          process_image ⟨.ok ⟨201, t, none⟩, dec, bytes, dx⟩ p u hs font cs)
    ∧ (∀ (p u t : String) (hs : List (String × String)) (font : Font) (cs : ColorState)
        (rest : List (String × ImageEnv)) (kvs : List (String × Json))
        (preds : List Json) (e : PyExc) (bytes : List Nat) (dx : Option PyExc),
      kvs.lookup "result" = some (.arr preds) →
      (process_image ⟨.ok ⟨201, t, some (.obj kvs)⟩, .error e, bytes, dx⟩ p u hs font cs).2.2 =
        some e
      ∧ runBatch u hs font
          ((p, ⟨.ok ⟨201, t, some (.obj kvs)⟩, .error e, bytes, dx⟩) :: rest) cs =
          process_image ⟨.ok ⟨201, t, some (.obj kvs)⟩, .error e, bytes, dx⟩ p u hs font cs)
    ∧ (∀ (p u t : String) (hs : List (String × String)) (font : Font) (cs : ColorState)
        (rest : List (String × ImageEnv)) (kvs : List (String × Json))
        (pred : Json) (more : List Json) (img : PILImage) (bytes : List Nat) (e : PyExc),
      kvs.lookup "result" = some (.arr (pred :: more)) →
      wfPred pred = true →
      (process_image ⟨.ok ⟨201, t, some (.obj kvs)⟩, .ok img, bytes, some e⟩
          p u hs font cs).2.2 = some e
      ∧ runBatch u hs font
          ((p, ⟨.ok ⟨201, t, some (.obj kvs)⟩, .ok img, bytes, some e⟩) :: rest) cs =
          process_image ⟨.ok ⟨201, t, some (.obj kvs)⟩, .ok img, bytes, some e⟩
            p u hs font cs) := by
  refine ⟨?_, ?_, ?_, ?_, ?_, ?_⟩
  · intro p u hs font cs rest dec bytes dx
    have h1 : process_image ⟨.fileNotFound, dec, bytes, dx⟩ p u hs font cs =
        ([.print ("\nProcessing image: " ++ p),
          .print ("Error: Image not found at " ++ p)], cs, none) := by
      simp [process_image]
    refine ⟨h1, ?_⟩
    have h2 := runBatch_cons_ok u hs font p ⟨.fileNotFound, dec, bytes, dx⟩ rest cs
      (by rw [h1])
    rw [h2, h1]
  · intro p u hs font cs rest resp dec bytes dx h
    have h1 : process_image ⟨.ok resp, dec, bytes, dx⟩ p u hs font cs =
        ([.print ("\nProcessing image: " ++ p),
          .print ("Prediction failed for " ++ p ++ ": " ++ resp.text)], cs, none) := by
      simp [process_image, h]
    refine ⟨by rw [h1], ?_⟩
    have h2 := runBatch_cons_ok u hs font p ⟨.ok resp, dec, bytes, dx⟩ rest cs (by rw [h1])
    rw [h2, h1]
  · intro p u hs font cs rest e dec bytes dx
    have h1 : process_image ⟨.raised e, dec, bytes, dx⟩ p u hs font cs =
        ([.print ("\nProcessing image: " ++ p)], cs, some e) := by
      simp [process_image]
    exact ⟨h1, runBatch_cons_exc u hs font p _ rest cs e (by rw [h1])⟩
  · intro p u t hs font cs rest dec bytes dx
    have h1 : process_image ⟨.ok ⟨201, t, none⟩, dec, bytes, dx⟩ p u hs font cs =
        ([.print ("\nProcessing image: " ++ p)], cs, some .jsonDecodeError) := by
      simp [process_image]
    exact ⟨h1, runBatch_cons_exc u hs font p _ rest cs .jsonDecodeError (by rw [h1])⟩
  · intro p u t hs font cs rest kvs preds e bytes dx hres
    have h1 : (process_image ⟨.ok ⟨201, t, some (.obj kvs)⟩, .error e, bytes, dx⟩
        p u hs font cs).2.2 = some e := by
      simp [process_image, dictGet, hres, pyLen]
    exact ⟨h1, runBatch_cons_exc u hs font p _ rest cs e h1⟩
  · intro p u t hs font cs rest kvs pred more img bytes e hres hwfp
    simp only [wfPred, Bool.and_eq_true] at hwfp
    obtain ⟨⟨⟨⟨⟨hx, hy⟩, hw⟩, hh⟩, hcn⟩, hcf⟩ := hwfp
    obtain ⟨cv, hcv⟩ := Option.isSome_iff_exists.mp hcn
    obtain ⟨fv, hfv⟩ := Option.isSome_iff_exists.mp hcf
    have gx := getItem_of_lookup (lookup_num_of_wf pred "x" hx)
    have gy := getItem_of_lookup (lookup_num_of_wf pred "y" hy)
    have gw := getItem_of_lookup (lookup_num_of_wf pred "w" hw)
    have gh := getItem_of_lookup (lookup_num_of_wf pred "h" hh)
    have gcn := getItem_of_lookup hcv
    have gcf := getItem_of_lookup hfv
    have h1 : (process_image ⟨.ok ⟨201, t, some (.obj kvs)⟩, .ok img, bytes, some e⟩
        p u hs font cs).2.2 = some e := by
      simp [process_image, dictGet, hres, pyLen, pyElems, processPreds,
        gx, gy, gw, gh, gcn, gcf, toRat]
    exact ⟨h1, runBatch_cons_exc u hs font p _ rest cs e h1⟩

theorem c1_amended_witness :
    (process_image ⟨.fileNotFound, .ok ⟨5, 5, []⟩, [], none⟩
        "input_images/a.jpg" "" [] .custom [] =
      ([.print ("\nProcessing image: " ++ "input_images/a.jpg"),
        .print ("Error: Image not found at " ++ "input_images/a.jpg")], [], none))
    ∧ ((500 : Int) ≠ 201)
    ∧ (process_image ⟨.ok ⟨500, "oops", none⟩, .ok ⟨5, 5, []⟩, [], none⟩
        "input_images/a.jpg" "" [] .custom []).2.2 = none
    ∧ (process_image ⟨.raised .connectionError, .ok ⟨5, 5, []⟩, [], none⟩
        "input_images/a.jpg" "" [] .custom [] =
      ([.print ("\nProcessing image: " ++ "input_images/a.jpg")], [], some .connectionError))
    ∧ (process_image ⟨.ok ⟨201, "", none⟩, .ok ⟨5, 5, []⟩, [], none⟩
        "input_images/a.jpg" "" [] .custom [] =
      ([.print ("\nProcessing image: " ++ "input_images/a.jpg")], [], some .jsonDecodeError))
    ∧ ([("result", Json.arr [])].lookup "result" = some (.arr []))
    ∧ (process_image ⟨.ok ⟨201, "", some (.obj [("result", .arr [])])⟩,
          .error .imageDecodeError, [], none⟩ "input_images/a.jpg" "" [] .custom []).2.2 =
        some .imageDecodeError
    ∧ (process_image ⟨.ok ⟨201, "", some (.obj [("result", .arr
          [.obj [("x", .num 10), ("y", .num 10), ("w", .num 50), ("h", .num 50),
                 ("class_name", .str "cat"), ("confidence", .num 1)]])])⟩,
          .ok ⟨640, 480, []⟩, [], some .drawError⟩
          "input_images/a.jpg" "" [] .custom []).2.2 = some .drawError :=
  ⟨(c1_amended.1 "input_images/a.jpg" "" [] .custom [] [] (.ok ⟨5, 5, []⟩) [] none).1,
   by decide,
   (c1_amended.2.1 "input_images/a.jpg" "" [] .custom [] [] ⟨500, "oops", none⟩
     (.ok ⟨5, 5, []⟩) [] none (by decide)).1,
   (c1_amended.2.2.1 "input_images/a.jpg" "" [] .custom [] [] .connectionError
     (.ok ⟨5, 5, []⟩) [] none).1,
   (c1_amended.2.2.2.1 "input_images/a.jpg" "" "" [] .custom [] [] (.ok ⟨5, 5, []⟩) [] none).1,
   rfl,
   (c1_amended.2.2.2.2.1 "input_images/a.jpg" "" "" [] .custom [] [] [("result", .arr [])] []
     .imageDecodeError [] none rfl).1,
   (c1_amended.2.2.2.2.2 "input_images/a.jpg" "" "" [] .custom [] []
     [("result", .arr [.obj [("x", .num 10), ("y", .num 10), ("w", .num 50), ("h", .num 50),
       ("class_name", .str "cat"), ("confidence", .num 1)]])]
     (.obj [("x", .num 10), ("y", .num 10), ("w", .num 50), ("h", .num 50),
       ("class_name", .str "cat"), ("confidence", .num 1)])
     [] ⟨640, 480, []⟩ [] .drawError rfl (by decide)).1⟩

/-- C2 counterexample: a 201 response whose JSON parses but whose single
Detection Record lacks `x`.  Processing of the image does not proceed
with an empty default: the lookup raises `KeyError("x")`, which escapes
the call (and nothing is written), refuting "a Detection Record missing
one of x, y, w, h, class_name, or confidence does not abort processing". -/
theorem c2_counterexample :
    (process_image ⟨.ok ⟨201, "", some (.obj [("result", .arr
        [.obj [("y", .num 1), ("w", .num 2), ("h", .num 3),
               ("class_name", .str "cat"), ("confidence", .num 1)]])])⟩,
        .ok ⟨640, 480, []⟩, [], none⟩ "input_images/a.jpg" "" [] .custom []).2.2 =
      some (.keyError "x")
    ∧ ((process_image ⟨.ok ⟨201, "", some (.obj [("result", .arr
        [.obj [("y", .num 1), ("w", .num 2), ("h", .num 3),
               ("class_name", .str "cat"), ("confidence", .num 1)]])])⟩,
        .ok ⟨640, 480, []⟩, [], none⟩ "input_images/a.jpg" "" [] .custom []).1.all
        fun e => !e.isWrite) = true :=
  ⟨rfl, rfl⟩

/-- C2 (amended): only the two top-level response fields fail soft — a
parsed body without `result` (or `image_info`) proceeds with an empty
list and still produces the annotation document (with empty shapes).  A
Detection Record missing any one of `x`, `y`, `w`, `h`, `class_name` or
`confidence`, at any position after well-formed records, raises an
uncaught `KeyError` (for one of those six keys) that terminates the
whole run; and a body of malformed JSON raises an uncaught decode error
that likewise terminates the whole run, not only that image. -/
theorem c2_amended :
    (∀ (p u t : String) (hs : List (String × String)) (font : Font) (cs : ColorState)
        (kvs : List (String × Json)) (img : PILImage) (bytes : List Nat),
      kvs.lookup "result" = none →
      (process_image ⟨.ok ⟨201, t, some (.obj kvs)⟩, .ok img, bytes, none⟩
          p u hs font cs).2.2 = none
      ∧ writtenDocs ((process_image ⟨.ok ⟨201, t, some (.obj kvs)⟩, .ok img, bytes, none⟩
          p u hs font cs).1) =
          [generate_labelme_json p bytes [] img.width img.height])
    ∧ (∀ (p u t : String) (hs : List (String × String)) (font : Font) (cs : ColorState)
        (rest : List (String × ImageEnv)) (kvs pkvs : List (String × Json))
        (pre post : List Json) (img : PILImage) (bytes : List Nat),
      kvs.lookup "result" = some (.arr (pre ++ .obj pkvs :: post)) →
      (∀ q ∈ pre, wfPred q = true) →
      (pkvs.lookup "x" = none ∨ pkvs.lookup "y" = none ∨ pkvs.lookup "w" = none ∨
        pkvs.lookup "h" = none ∨ pkvs.lookup "class_name" = none ∨
        pkvs.lookup "confidence" = none) →
      ∃ k, (k = "x" ∨ k = "y" ∨ k = "w" ∨ k = "h" ∨ k = "class_name" ∨ k = "confidence") ∧
        (process_image ⟨.ok ⟨201, t, some (.obj kvs)⟩, .ok img, bytes, none⟩
            p u hs font cs).2.2 = some (.keyError k)
        ∧ runBatch u hs font
            ((p, ⟨.ok ⟨201, t, some (.obj kvs)⟩, .ok img, bytes, none⟩) :: rest) cs =
            process_image ⟨.ok ⟨201, t, some (.obj kvs)⟩, .ok img, bytes, none⟩ p u hs font cs)
    ∧ (∀ (p u t : String) (hs : List (String × String)) (font : Font) (cs : ColorState)
        (rest : List (String × ImageEnv)) (dec : Except PyExc PILImage)
        (bytes : List Nat) (dx : Option PyExc),
      runBatch u hs font ((p, ⟨.ok ⟨201, t, none⟩, dec, bytes, dx⟩) :: rest) cs =
        ([.print ("\nProcessing image: " ++ p)], cs, some .jsonDecodeError)) := by
  refine ⟨?_, ?_, ?_⟩
  · intro p u t hs font cs kvs img bytes hres
    constructor
    · simp [process_image, dictGet, hres, pyLen, pyElems, processPreds]
    · simp [process_image, dictGet, hres, pyLen, pyElems, processPreds, writtenDocs]
  · intro p u t hs font cs rest kvs pkvs pre post img bytes hres hpre hmiss
    obtain ⟨i1, c1, hsplit⟩ :=
      processPreds_append_wf ⟨.ok ⟨201, t, some (.obj kvs)⟩, .ok img, bytes, none⟩ font rfl
        pre (.obj pkvs :: post) img cs hpre
    obtain ⟨k, hk, hbad⟩ :=
      processPreds_missing ⟨.ok ⟨201, t, some (.obj kvs)⟩, .ok img, bytes, none⟩ font
        pkvs post i1 c1 hmiss
    have hexc : (processPreds ⟨.ok ⟨201, t, some (.obj kvs)⟩, .ok img, bytes, none⟩ font
        (pre ++ .obj pkvs :: post) img cs).2 = some (.keyError k) := by
      rw [hsplit, hbad]
    have h1 : (process_image ⟨.ok ⟨201, t, some (.obj kvs)⟩, .ok img, bytes, none⟩
        p u hs font cs).2.2 = some (.keyError k) := by
      rcases hpp : processPreds ⟨.ok ⟨201, t, some (.obj kvs)⟩, .ok img, bytes, none⟩ font
          (pre ++ .obj pkvs :: post) img cs with ⟨⟨i2, sh2, c2⟩, exc⟩
      rw [hpp] at hexc
      simp only at hexc
      subst hexc
      simp [process_image, dictGet, hres, pyLen, pyElems, hpp]
    exact ⟨k, hk, h1, runBatch_cons_exc u hs font p _ rest cs _ h1⟩
  · intro p u t hs font cs rest dec bytes dx
    have h1 : process_image ⟨.ok ⟨201, t, none⟩, dec, bytes, dx⟩ p u hs font cs =
        ([.print ("\nProcessing image: " ++ p)], cs, some .jsonDecodeError) := by
      simp [process_image]
    rw [runBatch_cons_exc u hs font p _ rest cs .jsonDecodeError (by rw [h1]), h1]

theorem c2_amended_witness :
    (([] : List (String × Json)).lookup "result" = none)
    ∧ (process_image ⟨.ok ⟨201, "", some (.obj [])⟩, .ok ⟨640, 480, []⟩, [9], none⟩
        "input_images/a.jpg" "" [] .custom []).2.2 = none
    ∧ writtenDocs ((process_image ⟨.ok ⟨201, "", some (.obj [])⟩, .ok ⟨640, 480, []⟩,
        [9], none⟩ "input_images/a.jpg" "" [] .custom []).1) =
        [generate_labelme_json "input_images/a.jpg" [9] []
          (PILImage.mk 640 480 []).width (PILImage.mk 640 480 []).height]
    ∧ (∃ k, (k = "x" ∨ k = "y" ∨ k = "w" ∨ k = "h" ∨ k = "class_name" ∨ k = "confidence") ∧
        (process_image ⟨.ok ⟨201, "", some (.obj [("result", .arr
            [.obj [("x", .num 1), ("y", .num 2), ("w", .num 3), ("h", .num 4),
                   ("class_name", .str "dog"), ("confidence", .num 1)],
             .obj [("x", .num 10), ("y", .num 10), ("w", .num 50), ("h", .num 50),
                   ("class_name", .str "cat")]])])⟩,
            .ok ⟨640, 480, []⟩, [], none⟩ "input_images/a.jpg" "" [] .custom []).2.2 =
          some (.keyError k)
        ∧ runBatch "" [] .custom
            [("input_images/a.jpg", ⟨.ok ⟨201, "", some (.obj [("result", .arr
              [.obj [("x", .num 1), ("y", .num 2), ("w", .num 3), ("h", .num 4),
                     ("class_name", .str "dog"), ("confidence", .num 1)],
               .obj [("x", .num 10), ("y", .num 10), ("w", .num 50), ("h", .num 50),
                     ("class_name", .str "cat")]])])⟩, .ok ⟨640, 480, []⟩, [], none⟩)] [] =
            process_image ⟨.ok ⟨201, "", some (.obj [("result", .arr
              [.obj [("x", .num 1), ("y", .num 2), ("w", .num 3), ("h", .num 4),
                     ("class_name", .str "dog"), ("confidence", .num 1)],
               .obj [("x", .num 10), ("y", .num 10), ("w", .num 50), ("h", .num 50),
                     ("class_name", .str "cat")]])])⟩,
              .ok ⟨640, 480, []⟩, [], none⟩ "input_images/a.jpg" "" [] .custom [])
    ∧ runBatch "" [] .custom
        [("input_images/a.jpg", ⟨.ok ⟨201, "", none⟩, .ok ⟨640, 480, []⟩, [], none⟩)] [] =
        ([.print ("\nProcessing image: " ++ "input_images/a.jpg")], [], some .jsonDecodeError) :=
  ⟨rfl,
   (c2_amended.1 "input_images/a.jpg" "" "" [] .custom [] [] ⟨640, 480, []⟩ [9] rfl).1,
   (c2_amended.1 "input_images/a.jpg" "" "" [] .custom [] [] ⟨640, 480, []⟩ [9] rfl).2,
   c2_amended.2.1 "input_images/a.jpg" "" "" [] .custom [] []
     [("result", .arr
       [.obj [("x", .num 1), ("y", .num 2), ("w", .num 3), ("h", .num 4),
              ("class_name", .str "dog"), ("confidence", .num 1)],
        .obj [("x", .num 10), ("y", .num 10), ("w", .num 50), ("h", .num 50),
              ("class_name", .str "cat")]])]
     [("x", .num 10), ("y", .num 10), ("w", .num 50), ("h", .num 50),
      ("class_name", .str "cat")]
     [.obj [("x", .num 1), ("y", .num 2), ("w", .num 3), ("h", .num 4),
            ("class_name", .str "dog"), ("confidence", .num 1)]]
     [] ⟨640, 480, []⟩ [] rfl (by decide)
     (.inr (.inr (.inr (.inr (.inr rfl))))),
   c2_amended.2.2 "input_images/a.jpg" "" "" [] .custom [] []
     (.ok ⟨640, 480, []⟩) [] none⟩

/-- C5 counterexample: for the concrete Detection Record
`{x:10, y:10, w:50, h:50, class_name:"cat", confidence:0.87}` the emitted
Shape Record has the right label, points and order, but its `group_id`
key is *present* (bound to null) rather than absent, refuting "group_id
absent". -/
theorem c5_counterexample :
    writtenDocs ((process_image ⟨.ok ⟨201, "", some (.obj [("result", .arr
        [.obj [("x", .num 10), ("y", .num 10), ("w", .num 50), ("h", .num 50),
               ("class_name", .str "cat"), ("confidence", .num (87 / 100))]])])⟩,
        .ok ⟨640, 480, []⟩, [], none⟩ "input_images/a.jpg" "" [] .custom []).1) =
      [generate_labelme_json "input_images/a.jpg" []
        [.obj [("label", .str "cat"),
               ("points", .arr [.arr [.num 10, .num 10], .arr [.num 60, .num 60]]),
               ("group_id", .null),
               ("shape_type", .str "rectangle"),
               ("flags", .obj [])]] 640 480]
    ∧ (jsonLookup (.obj [("label", .str "cat"),
               ("points", .arr [.arr [.num 10, .num 10], .arr [.num 60, .num 60]]),
               ("group_id", .null),
               ("shape_type", .str "rectangle"),
               ("flags", .obj [])]) "group_id").isSome = true
    ∧ jsonLookup (.obj [("label", .str "cat"),
               ("points", .arr [.arr [.num 10, .num 10], .arr [.num 60, .num 60]]),
               ("group_id", .null),
               ("shape_type", .str "rectangle"),
               ("flags", .obj [])]) "group_id" = some .null :=
  ⟨by with_unfolding_all rfl, rfl, rfl⟩

/-- C5 (amended): for every list of Detection Records with numeric
`x, y, w, h` and present `class_name`, `confidence`, the emitted shapes
(in the written Annotation Document) are exactly one per record and in
the same order, each with label = `class_name`, points =
`[[x, y], [x+w, y+h]]`, shape_type `"rectangle"`, empty flags, and a
`group_id` key present with value null. -/
theorem c5_amended (p u t : String) (hs : List (String × String)) (font : Font)
    (cs : ColorState) (kvs : List (String × Json)) (preds : List Json)
    (img : PILImage) (bytes : List Nat)
    (hres : kvs.lookup "result" = some (.arr preds))
    (hwf : ∀ q ∈ preds, wfPred q = true) :
    writtenDocs ((process_image ⟨.ok ⟨201, t, some (.obj kvs)⟩, .ok img, bytes, none⟩
        p u hs font cs).1) =
      [generate_labelme_json p bytes (preds.map predShape) img.width img.height]
    ∧ (process_image ⟨.ok ⟨201, t, some (.obj kvs)⟩, .ok img, bytes, none⟩
        p u hs font cs).2.2 = none := by
  obtain ⟨img2, cs2, hrec, hw, hh⟩ :=
    processPreds_wf ⟨.ok ⟨201, t, some (.obj kvs)⟩, .ok img, bytes, none⟩ font rfl
      preds img cs hwf
  constructor
  · simp [process_image, dictGet, hres, pyLen, pyElems, hrec, writtenDocs, hw, hh]
  · simp [process_image, dictGet, hres, pyLen, pyElems, hrec]

theorem c5_amended_witness :
    ([("result", Json.arr [Json.obj [("x", .num 10), ("y", .num 10), ("w", .num 50),
        ("h", .num 50), ("class_name", .str "cat"), ("confidence", .num (87 / 100))]])].lookup
        "result" =
      some (.arr [Json.obj [("x", .num 10), ("y", .num 10), ("w", .num 50),
        ("h", .num 50), ("class_name", .str "cat"), ("confidence", .num (87 / 100))]]))
    ∧ writtenDocs ((process_image ⟨.ok ⟨201, "", some (.obj [("result", .arr
        [Json.obj [("x", .num 10), ("y", .num 10), ("w", .num 50), ("h", .num 50),
          ("class_name", .str "cat"), ("confidence", .num (87 / 100))]])])⟩,
        .ok ⟨640, 480, []⟩, [], none⟩ "input_images/a.jpg" "" [] .custom []).1) =
      [generate_labelme_json "input_images/a.jpg" []
        ([Json.obj [("x", .num 10), ("y", .num 10), ("w", .num 50), ("h", .num 50),
          ("class_name", .str "cat"), ("confidence", .num (87 / 100))]].map predShape)
        (PILImage.mk 640 480 []).width (PILImage.mk 640 480 []).height] :=
  ⟨rfl,
   (c5_amended "input_images/a.jpg" "" "" [] .custom []
     [("result", .arr [Json.obj [("x", .num 10), ("y", .num 10), ("w", .num 50),
       ("h", .num 50), ("class_name", .str "cat"), ("confidence", .num (87 / 100))]])]
     [Json.obj [("x", .num 10), ("y", .num 10), ("w", .num 50), ("h", .num 50),
       ("class_name", .str "cat"), ("confidence", .num (87 / 100))]]
     ⟨640, 480, []⟩ [] rfl (by decide)).1⟩
